import Mathlib

/-!
Shallow embedding of the smart-home automation core
(`smart_home_agent.py`): device registry, per-type command dispatch
(`control_light`, `control_thermostat`, `control_camera`,
`control_door_lock`), contextual-rule execution
(`execute_contextual_rule`) and the suggestion engine
(`get_contextual_suggestions`).

Python dynamic values (`Dict[str, Any]` property bags, keyword
arguments) are embedded as association lists over an inductive `Value`
type; Python `datetime` timestamps are an abstract `Nat` parameter
(`now`) supplied to each mutating call, and `datetime.now().time()` is
a `Nat` counting seconds since midnight.  Registries (`self.devices`)
and the rule store (`self.contextual_rules`) are insertion-ordered
association structures, embedded as lists looked up by the `id` field,
which is the key used by the Python dicts.
-/

namespace SmartHome

/-- Python `DeviceType` enum. -/
inductive DeviceType where
  | light
  | thermostat
  | security_camera
  | door_lock
  | motion_sensor
deriving DecidableEq, Repr

/-- Python `DeviceStatus` enum. -/
inductive DeviceStatus where
  | on
  | off
  | active
  | inactive
deriving DecidableEq, Repr

/-- A dynamically-typed Python value as it appears in property bags,
keyword arguments and trigger conditions (ints, strings, booleans,
`None`, and nested dicts). -/
inductive Value where
  | int (n : Int)
  | str (s : String)
  | bool (b : Bool)
  | vnone
  | dict (entries : List (String × Value))

/-- Python truthiness of a `Value` (used by `not` on a property). -/
def Value.truthy : Value → Bool
  | .int n => n != 0
  | .str s => s != ""
  | .bool b => b
  | .vnone => false
  | .dict entries => !entries.isEmpty

/-- A Python dict of string keys, in insertion order. -/
abbrev Props := List (String × Value)

/-- `d.get(k)`: first (and in a dict, only) binding of `k`. -/
def propGet (props : Props) (k : String) : Option Value :=
  (props.find? (fun p => p.1 == k)).map Prod.snd

/-- `d.get(k, dflt)`. -/
def propGetD (props : Props) (k : String) (dflt : Value) : Value :=
  match propGet props k with
  | some v => v
  | none => dflt

/-- `d[k] = v`: overwrite in place if the key is present (dicts keep
the original position of the key), otherwise append. -/
def propSet (props : Props) (k : String) (v : Value) : Props :=
  if (props.find? (fun p => p.1 == k)).isSome then
    props.map (fun p => if p.1 == k then (k, v) else p)
  else
    props ++ [(k, v)]

/-- Python `Device` dataclass.  `last_updated` is an abstract
timestamp. -/
structure Device where
  id : String
  name : String
  type : DeviceType
  status : DeviceStatus
  location : String
  properties : Props
  last_updated : Nat

/-- Python `ContextualRule.actions` entries are dicts holding a
`device_id` key, an `action` key and the remaining keyword arguments;
the executor reads exactly those three pieces
(`action.get("device_id")`, `action.get("action")`, and the dict
comprehension dropping those two keys). -/
structure RuleAction where
  device_id : String
  action : String
  kwargs : Props

/-- Python `ContextualRule` dataclass. -/
structure ContextualRule where
  id : String
  name : String
  trigger_conditions : Props
  actions : List RuleAction
  enabled : Bool
  priority : Int

/-- `self.devices.get(device_id)` (`get_device`): the registry is a
dict keyed by `Device.id`. -/
def getDevice (devices : List Device) (device_id : String) : Option Device :=
  devices.find? (fun d => d.id == device_id)

/-- Writing the mutated device back into the dict slot that
`get_device` resolved: every entry with the same id (in a dict there
is exactly one) is replaced, all others are untouched. -/
def setDevice (devices : List Device) (d : Device) : List Device :=
  devices.map (fun e => if e.id == d.id then d else e)

/-- Result dict of a `control_*` call: either
`{"success": False, "error": ...}` or
`{"success": True, "message": ..., "device": asdict(device)}`. -/
inductive ControlResult where
  | failure (error : String)
  | ok (message : String) (device : Device)

/-- `if key in kwargs: device.properties[key] = kwargs[key]`. -/
def applyOptProp (d : Device) (kwargs : Props) (key : String) : Device :=
  match propGet kwargs key with
  | some v => { d with properties := propSet d.properties key v }
  | none => d

/-- The state transition of `control_light`'s `if action == ...`
chain (everything between the type check and the `last_updated`
stamp). -/
def lightTransition (d : Device) (action : String) (kwargs : Props) : Device :=
  if action == "turn_on" then
    applyOptProp
      (applyOptProp
        { d with status := DeviceStatus.on,
                 properties := propSet d.properties "brightness"
                   (propGetD kwargs "brightness" (Value.int 100)) }
        kwargs "color")
      kwargs "temperature"
  else if action == "turn_off" then
    { d with status := DeviceStatus.off,
             properties := propSet d.properties "brightness" (Value.int 0) }
  else if action == "set_brightness" then
    if d.status = DeviceStatus.on then
      { d with properties := propSet d.properties "brightness"
                 (propGetD kwargs "brightness" (Value.int 50)) }
    else d
  else d

/-- `control_light`. -/
def control_light (devices : List Device) (device_id : String) (action : String)
    (kwargs : Props) (now : Nat) : ControlResult × List Device :=
  match getDevice devices device_id with
  | none => (ControlResult.failure "Light device not found", devices)
  | some device =>
    if device.type = DeviceType.light then
      let device' := { lightTransition device action kwargs with last_updated := now }
      (ControlResult.ok (device'.name ++ " " ++ action ++ " completed") device',
       setDevice devices device')
    else (ControlResult.failure "Light device not found", devices)

/-- The state transition of `control_thermostat`'s `if action == ...`
chain.  Status is not altered by these actions. -/
def thermostatTransition (d : Device) (action : String) (kwargs : Props) : Device :=
  if action == "set_temperature" then
    { d with properties := propSet d.properties "target_temp"
               (propGetD kwargs "temperature" (Value.int 72)) }
  else if action == "set_mode" then
    { d with properties := propSet d.properties "mode"
               (propGetD kwargs "mode" (Value.str "auto")) }
  else d

/-- `control_thermostat`. -/
def control_thermostat (devices : List Device) (device_id : String) (action : String)
    (kwargs : Props) (now : Nat) : ControlResult × List Device :=
  match getDevice devices device_id with
  | none => (ControlResult.failure "Thermostat device not found", devices)
  | some device =>
    if device.type = DeviceType.thermostat then
      let device' := { thermostatTransition device action kwargs with last_updated := now }
      (ControlResult.ok ("Thermostat " ++ action ++ " completed") device',
       setDevice devices device')
    else (ControlResult.failure "Thermostat device not found", devices)

/-- The state transition of `control_camera`'s `if action == ...`
chain.  `toggle_motion_detection` negates the Python truthiness of
`properties.get("motion_detection", True)`. -/
def cameraTransition (d : Device) (action : String) (_kwargs : Props) : Device :=
  if action == "enable_recording" then
    { d with properties := propSet d.properties "recording" (Value.bool true) }
  else if action == "disable_recording" then
    { d with properties := propSet d.properties "recording" (Value.bool false) }
  else if action == "toggle_motion_detection" then
    { d with properties := propSet d.properties "motion_detection"
               (Value.bool (!(propGetD d.properties "motion_detection"
                                (Value.bool true)).truthy)) }
  else d

/-- `control_camera`. -/
def control_camera (devices : List Device) (device_id : String) (action : String)
    (kwargs : Props) (now : Nat) : ControlResult × List Device :=
  match getDevice devices device_id with
  | none => (ControlResult.failure "Camera device not found", devices)
  | some device =>
    if device.type = DeviceType.security_camera then
      let device' := { cameraTransition device action kwargs with last_updated := now }
      (ControlResult.ok ("Camera " ++ action ++ " completed") device',
       setDevice devices device')
    else (ControlResult.failure "Camera device not found", devices)

/-- The state transition of `control_door_lock`'s `if action == ...`
chain: `lock` sets `status=OFF` (OFF = locked) and `locked=True`,
`unlock` sets `status=ON` and `locked=False`. -/
def lockTransition (d : Device) (action : String) (_kwargs : Props) : Device :=
  if action == "lock" then
    { d with status := DeviceStatus.off,
             properties := propSet d.properties "locked" (Value.bool true) }
  else if action == "unlock" then
    { d with status := DeviceStatus.on,
             properties := propSet d.properties "locked" (Value.bool false) }
  else d

/-- `control_door_lock`. -/
def control_door_lock (devices : List Device) (device_id : String) (action : String)
    (kwargs : Props) (now : Nat) : ControlResult × List Device :=
  match getDevice devices device_id with
  | none => (ControlResult.failure "Door lock device not found", devices)
  | some device =>
    if device.type = DeviceType.door_lock then
      let device' := { lockTransition device action kwargs with last_updated := now }
      (ControlResult.ok ("Door " ++ action ++ " completed") device',
       setDevice devices device')
    else (ControlResult.failure "Door lock device not found", devices)

/-- One iteration of `execute_contextual_rule`'s action loop: resolve
the target device, then route by device type through the `elif` chain;
an unresolved device id or a device type with no handler
(`MOTION_SENSOR` falls into the final `else`) is a `continue`. -/
def dispatchAction (devices : List Device) (a : RuleAction) (now : Nat) :
    Option (ControlResult × List Device) :=
  match getDevice devices a.device_id with
  | none => none
  | some device =>
    match device.type with
    | DeviceType.light => some (control_light devices a.device_id a.action a.kwargs now)
    | DeviceType.thermostat => some (control_thermostat devices a.device_id a.action a.kwargs now)
    | DeviceType.security_camera => some (control_camera devices a.device_id a.action a.kwargs now)
    | DeviceType.door_lock => some (control_door_lock devices a.device_id a.action a.kwargs now)
    | DeviceType.motion_sensor => none

/-- The `for action in rule.actions` loop of `execute_contextual_rule`:
threads the registry through the dispatched actions and collects the
dispatcher results in order, skipping `continue`d actions. -/
def runActions (devices : List Device) (acts : List RuleAction) (now : Nat) :
    List ControlResult × List Device :=
  match acts with
  | [] => ([], devices)
  | a :: rest =>
    match dispatchAction devices a now with
    | none => runActions devices rest now
    | some (r, devices2) =>
      let step := runActions devices2 rest now
      (r :: step.1, step.2)

/-- Result dict of `execute_contextual_rule`: either
`{"success": False, "error": ...}` or `{"success": True, "rule": ...,
"results": [...], "actions_completed": len(results)}`. -/
inductive RuleResult where
  | failure (error : String)
  | ok (rule : String) (results : List ControlResult) (actions_completed : Nat)

/-- `execute_contextual_rule`.  The rule store is a dict keyed by
`ContextualRule.id`. -/
def execute_contextual_rule (rules : List ContextualRule) (devices : List Device)
    (rule_id : String) (now : Nat) : RuleResult × List Device :=
  match rules.find? (fun r => r.id == rule_id) with
  | none => (RuleResult.failure "Rule not found or disabled", devices)
  | some rule =>
    if rule.enabled then
      let step := runActions devices rule.actions now
      (RuleResult.ok rule.name step.1 step.1.length, step.2)
    else (RuleResult.failure "Rule not found or disabled", devices)

/-- A suggestion dict produced by `get_contextual_suggestions`. -/
structure Suggestion where
  id : String
  type : String
  title : String
  description : String
  actions : List String
  priority : String
deriving DecidableEq, Repr

/-- Wall-clock `datetime.time` values, as seconds since midnight;
`tsec h m` is Python `time(h, m)`. -/
def tsec (h m : Nat) : Nat := h * 3600 + m * 60

/-- The morning-routine suggestion dict (6 AM - 9 AM band). -/
def morningSuggestion : Suggestion :=
  { id := "morning_routine", type := "routine", title := "Good Morning Routine",
    description := "Turn on lights and adjust temperature for the day",
    actions := ["turn_on_living_room_light", "set_thermostat_73", "turn_on_kitchen_light"],
    priority := "high" }

/-- The evening wind-down suggestion dict (6 PM - 10 PM band). -/
def eveningSuggestion : Suggestion :=
  { id := "evening_routine", type := "routine", title := "Evening Wind Down",
    description := "Dim lights and prepare for relaxation",
    actions := ["dim_living_room_light", "set_thermostat_70"],
    priority := "medium" }

/-- The bedtime-preparation suggestion dict (10 PM - 11 PM band). -/
def bedtimeSuggestion : Suggestion :=
  { id := "bedtime_routine", type := "routine", title := "Bedtime Preparation",
    description := "Activate bedtime routine for better sleep",
    actions := ["turn_off_main_lights", "dim_bedroom_light", "lower_temperature"],
    priority := "high" }

/-- The away-mode security suggestion dict. -/
def securitySuggestion : Suggestion :=
  { id := "security_mode", type := "security", title := "Away Mode",
    description := "Enable security features while away",
    actions := ["enable_camera_recording", "lock_all_doors", "turn_off_lights"],
    priority := "high" }

/-- The energy-saving suggestion dict. -/
def energySuggestion : Suggestion :=
  { id := "energy_save", type := "energy", title := "Energy Saving",
    description := "Turn off unused lights to save energy",
    actions := ["optimize_lighting", "adjust_thermostat"],
    priority := "low" }

/-- The `if/elif/elif` time-band chain of `get_contextual_suggestions`
(both interval ends inclusive, bands tried in source order). -/
def timeSuggestions (current_time : Nat) : List Suggestion :=
  if tsec 6 0 ≤ current_time ∧ current_time ≤ tsec 9 0 then
    [morningSuggestion]
  else if tsec 18 0 ≤ current_time ∧ current_time ≤ tsec 22 0 then
    [eveningSuggestion]
  else if tsec 22 0 ≤ current_time ∧ current_time ≤ tsec 23 0 then
    [bedtimeSuggestion]
  else []

/-- `get_contextual_suggestions`, with the wall-clock time
(`datetime.now().time()`) and the occupancy dict
(`self.occupancy_status`) passed explicitly.  The away-mode block
appends when `not any(self.occupancy_status.values())`, the
energy-saving block when more than two lights have status ON. -/
def get_contextual_suggestions (devices : List Device)
    (occupancy_status : List (String × Bool)) (current_time : Nat) : List Suggestion :=
  timeSuggestions current_time
    ++ (if !(occupancy_status.any (fun p => p.2)) then [securitySuggestion] else [])
    ++ (if (devices.filter (fun d =>
              d.type == DeviceType.light && d.status == DeviceStatus.on)).length > 2 then
          [energySuggestion]
        else [])

/-- Seed device from `setup_default_devices` (its `datetime.now()`
initialization timestamp is abstracted to 0). -/
def livingRoomLight : Device :=
  { id := "living_room_light", name := "Living Room Light",
    type := DeviceType.light, status := DeviceStatus.off, location := "living_room",
    properties := [("brightness", Value.int 0), ("color", Value.str "white"),
                   ("temperature", Value.int 3000)],
    last_updated := 0 }

/-- Seed device from `setup_default_devices`. -/
def bedroomLight : Device :=
  { id := "bedroom_light", name := "Bedroom Light",
    type := DeviceType.light, status := DeviceStatus.off, location := "bedroom",
    properties := [("brightness", Value.int 0), ("color", Value.str "white"),
                   ("temperature", Value.int 3000)],
    last_updated := 0 }

/-- Seed device from `setup_default_devices`. -/
def kitchenLight : Device :=
  { id := "kitchen_light", name := "Kitchen Light",
    type := DeviceType.light, status := DeviceStatus.off, location := "kitchen",
    properties := [("brightness", Value.int 0), ("color", Value.str "white"),
                   ("temperature", Value.int 4000)],
    last_updated := 0 }

/-- Seed device from `setup_default_devices`. -/
def mainThermostat : Device :=
  { id := "main_thermostat", name := "Main Thermostat",
    type := DeviceType.thermostat, status := DeviceStatus.active, location := "hallway",
    properties := [("temperature", Value.int 72), ("target_temp", Value.int 72),
                   ("mode", Value.str "auto"), ("humidity", Value.int 45)],
    last_updated := 0 }

/-- Seed device from `setup_default_devices`. -/
def frontDoorCamera : Device :=
  { id := "front_door_camera", name := "Front Door Camera",
    type := DeviceType.security_camera, status := DeviceStatus.active,
    location := "front_door",
    properties := [("recording", Value.bool true), ("motion_detection", Value.bool true),
                   ("night_vision", Value.bool true)],
    last_updated := 0 }

/-- Seed device from `setup_default_devices`. -/
def backDoorCamera : Device :=
  { id := "back_door_camera", name := "Back Door Camera",
    type := DeviceType.security_camera, status := DeviceStatus.active,
    location := "back_door",
    properties := [("recording", Value.bool false), ("motion_detection", Value.bool true),
                   ("night_vision", Value.bool true)],
    last_updated := 0 }

/-- Seed device from `setup_default_devices` (`OFF` = locked). -/
def frontDoorLock : Device :=
  { id := "front_door_lock", name := "Front Door Lock",
    type := DeviceType.door_lock, status := DeviceStatus.off, location := "front_door",
    properties := [("locked", Value.bool true), ("auto_lock", Value.bool true),
                   ("access_code", Value.str "1234")],
    last_updated := 0 }

/-- Seed device from `setup_default_devices`. -/
def livingRoomMotion : Device :=
  { id := "living_room_motion", name := "Living Room Motion Sensor",
    type := DeviceType.motion_sensor, status := DeviceStatus.inactive,
    location := "living_room",
    properties := [("sensitivity", Value.str "medium"), ("last_motion", Value.vnone)],
    last_updated := 0 }

/-- The registry seeded by `setup_default_devices`, in insertion
order. -/
def defaultDevices : List Device :=
  [livingRoomLight, bedroomLight, kitchenLight, mainThermostat,
   frontDoorCamera, backDoorCamera, frontDoorLock, livingRoomMotion]

/-- Seed rule `welcome_home` from `setup_default_rules`. -/
def welcomeHomeRule : ContextualRule :=
  { id := "welcome_home", name := "Welcome Home Automation",
    trigger_conditions :=
      [("door_unlock", Value.bool true),
       ("time_range", Value.dict [("start", Value.str "06:00"), ("end", Value.str "22:00")])],
    actions :=
      [⟨"living_room_light", "turn_on", [("brightness", Value.int 80)]⟩,
       ⟨"main_thermostat", "set_temperature", [("temperature", Value.int 72)]⟩],
    enabled := true, priority := 1 }

/-- Seed rule `bedtime_routine` from `setup_default_rules`. -/
def bedtimeRule : ContextualRule :=
  { id := "bedtime_routine", name := "Bedtime Automation",
    trigger_conditions := [("time", Value.str "22:00"), ("occupancy", Value.bool true)],
    actions :=
      [⟨"living_room_light", "turn_off", []⟩,
       ⟨"kitchen_light", "turn_off", []⟩,
       ⟨"bedroom_light", "turn_on", [("brightness", Value.int 30)]⟩,
       ⟨"main_thermostat", "set_temperature", [("temperature", Value.int 68)]⟩],
    enabled := true, priority := 2 }

/-- Seed rule `security_mode` from `setup_default_rules`. -/
def securityModeRule : ContextualRule :=
  { id := "security_mode", name := "Away Security Mode",
    trigger_conditions := [("occupancy", Value.bool false), ("duration_away", Value.int 30)],
    actions :=
      [⟨"living_room_light", "turn_off", []⟩,
       ⟨"bedroom_light", "turn_off", []⟩,
       ⟨"kitchen_light", "turn_off", []⟩,
       ⟨"front_door_camera", "enable_recording", []⟩,
       ⟨"back_door_camera", "enable_recording", []⟩,
       ⟨"main_thermostat", "set_temperature", [("temperature", Value.int 65)]⟩],
    enabled := true, priority := 3 }

/-- Seed rule `morning_routine` from `setup_default_rules`. -/
def morningRoutineRule : ContextualRule :=
  { id := "morning_routine", name := "Good Morning Automation",
    trigger_conditions := [("time", Value.str "07:00"), ("occupancy", Value.bool true)],
    actions :=
      [⟨"living_room_light", "turn_on",
        [("brightness", Value.int 90), ("temperature", Value.int 4000)]⟩,
       ⟨"kitchen_light", "turn_on", [("brightness", Value.int 100)]⟩,
       ⟨"main_thermostat", "set_temperature", [("temperature", Value.int 73)]⟩],
    enabled := true, priority := 1 }

/-- The rule store seeded by `setup_default_rules`, keyed by rule id
in insertion order. -/
def defaultRules : List ContextualRule :=
  [welcomeHomeRule, bedtimeRule, securityModeRule, morningRoutineRule]

/-- An action's target device id resolves in the registry to a device
handled by one of the four dispatcher branches (everything except
`MOTION_SENSOR`, which falls into the loop's final `else:
continue`). -/
def resolvable (devices : List Device) (a : RuleAction) : Bool :=
  match getDevice devices a.device_id with
  | some d => !(d.type == DeviceType.motion_sensor)
  | none => false

/-- The id and type visible at a registry slot. -/
def lookupKey (devices : List Device) (x : String) : Option (String × DeviceType) :=
  (getDevice devices x).map (fun d => (d.id, d.type))

/-- The device id carried by a successful dispatcher result. -/
def resultId : ControlResult → Option String
  | ControlResult.failure _ => none
  | ControlResult.ok _ d => some d.id

/-- Whether a suggestion is one of the three time-band suggestions
(morning routine, evening wind-down, bedtime preparation). -/
def isTimeBandSuggestion (s : Suggestion) : Bool :=
  s.id == "morning_routine" || s.id == "evening_routine" || s.id == "bedtime_routine"

/-- An enabled rule whose single action targets the seeded registry's
motion sensor: the target device id resolves, but no dispatcher branch
handles a motion sensor. -/
def motionRule : ContextualRule :=
  { id := "motion_rule", name := "Motion Rule", trigger_conditions := [],
    actions := [⟨"living_room_motion", "turn_on", []⟩],
    enabled := true, priority := 1 }

/-- The seeded `bedtime_routine` rule with its enabled flag turned
off. -/
def disabledBedtimeRule : ContextualRule :=
  { bedtimeRule with enabled := false }

/-- An enabled rule none of whose actions reach a dispatcher branch:
one target id is absent from the seeded registry, the other resolves
to the motion sensor. -/
def unresolvableRule : ContextualRule :=
  { id := "unresolvable_rule", name := "Unresolvable Rule", trigger_conditions := [],
    actions := [⟨"garage_light", "turn_on", []⟩, ⟨"living_room_motion", "turn_off", []⟩],
    enabled := true, priority := 5 }

/-- A light whose status is already ON, for exercising
`set_brightness` without a `brightness` keyword argument. -/
def demoOnLight : Device :=
  { id := "desk_light", name := "Desk Light", type := DeviceType.light,
    status := DeviceStatus.on, location := "office",
    properties := [("brightness", Value.int 80), ("color", Value.str "white")],
    last_updated := 0 }

/-! ### Registry lookup and update lemmas -/

/-- A successful registry lookup returns a device carrying the id it
was looked up by. -/
theorem getDevice_id (devices : List Device) (x : String) (d : Device)
    (h : getDevice devices x = some d) : d.id = x := by
  have hp := List.find?_some h
  exact eq_of_beq hp

/-- Writing a device back affects exactly the slot carrying its id. -/
theorem getDevice_setDevice (devices : List Device) (d' : Device) (x : String) :
    getDevice (setDevice devices d') x =
      if x = d'.id then (getDevice devices x).map (fun _ => d')
      else getDevice devices x := by
  induction devices with
  | nil => simp [getDevice, setDevice]
  | cons e es ih =>
    simp only [getDevice, setDevice, List.map_cons] at ih ⊢
    by_cases h1 : e.id = d'.id
    · have hhead : (if (e.id == d'.id) = true then d' else e) = d' := by simp [h1]
      rw [hhead]
      by_cases h2 : x = d'.id
      · subst h2
        rw [List.find?_cons_of_pos _ (by simp), List.find?_cons_of_pos _ (by simp [h1]),
          if_pos rfl]
        rfl
      · rw [List.find?_cons_of_neg _ (by simp; exact fun h => h2 h.symm),
          List.find?_cons_of_neg _ (by simp; exact fun h => h2 (h1 ▸ h).symm),
          if_neg h2]
        rw [ih, if_neg h2]
    · have hhead : (if (e.id == d'.id) = true then d' else e) = e := by simp [h1]
      rw [hhead]
      by_cases h3 : e.id = x
      · rw [List.find?_cons_of_pos _ (by simp [h3]), List.find?_cons_of_pos _ (by simp [h3]),
          if_neg (fun h => h1 (h3.symm ▸ h))]
      · rw [List.find?_cons_of_neg _ (by simp [h3]), List.find?_cons_of_neg _ (by simp [h3]),
          ih]

/-! ### Property-bag lemmas -/

/-- Overwriting a present key in place makes it read back the new
value. -/
theorem propGet_map_overwrite (props : Props) (k : String) (v : Value)
    (h : (props.find? (fun p => p.1 == k)).isSome = true) :
    propGet (props.map (fun p => if p.1 == k then (k, v) else p)) k = some v := by
  induction props with
  | nil => simp [List.find?] at h
  | cons p ps ih =>
    simp only [List.map_cons]
    by_cases hp : p.1 = k
    · have hhead : (if (p.1 == k) = true then (k, v) else p) = (k, v) := by simp [hp]
      rw [hhead]
      unfold propGet
      rw [List.find?_cons_of_pos _ (by simp)]
      rfl
    · have hhead : (if (p.1 == k) = true then (k, v) else p) = p := by simp [hp]
      rw [hhead]
      unfold propGet
      rw [List.find?_cons_of_neg _ (by simp [hp])]
      have h' : (ps.find? (fun p => p.1 == k)).isSome = true := by
        rw [List.find?_cons_of_neg _ (by simp [hp])] at h
        exact h
      exact ih h'

/-- After `props[k] = v`, reading `props.get(k)` yields `v`. -/
theorem propGet_propSet (props : Props) (k : String) (v : Value) :
    propGet (propSet props k v) k = some v := by
  unfold propSet
  split_ifs with h
  · exact propGet_map_overwrite props k v h
  · unfold propGet
    rw [List.find?_append]
    rw [Option.not_isSome_iff_eq_none.mp h]
    rw [List.find?_cons_of_pos _ (by simp)]
    rfl

/-! ### Transitions keep identity fields -/

/-- `applyOptProp` only touches `properties`. -/
theorem applyOptProp_id (d : Device) (kwargs : Props) (key : String) :
    (applyOptProp d kwargs key).id = d.id := by
  unfold applyOptProp; split <;> rfl

/-- `applyOptProp` only touches `properties`. -/
theorem applyOptProp_type (d : Device) (kwargs : Props) (key : String) :
    (applyOptProp d kwargs key).type = d.type := by
  unfold applyOptProp; split <;> rfl

/-- `applyOptProp` only touches `properties`. -/
theorem applyOptProp_name (d : Device) (kwargs : Props) (key : String) :
    (applyOptProp d kwargs key).name = d.name := by
  unfold applyOptProp; split <;> rfl

/-- Light actions never change a device's id. -/
theorem lightTransition_id (d : Device) (action : String) (kwargs : Props) :
    (lightTransition d action kwargs).id = d.id := by
  unfold lightTransition; split_ifs <;> simp [applyOptProp_id]

/-- Light actions never change a device's type. -/
theorem lightTransition_type (d : Device) (action : String) (kwargs : Props) :
    (lightTransition d action kwargs).type = d.type := by
  unfold lightTransition; split_ifs <;> simp [applyOptProp_type]

/-- Light actions never change a device's name. -/
theorem lightTransition_name (d : Device) (action : String) (kwargs : Props) :
    (lightTransition d action kwargs).name = d.name := by
  unfold lightTransition; split_ifs <;> simp [applyOptProp_name]

/-- Thermostat actions never change a device's id. -/
theorem thermostatTransition_id (d : Device) (action : String) (kwargs : Props) :
    (thermostatTransition d action kwargs).id = d.id := by
  unfold thermostatTransition; split_ifs <;> rfl

/-- Thermostat actions never change a device's type. -/
theorem thermostatTransition_type (d : Device) (action : String) (kwargs : Props) :
    (thermostatTransition d action kwargs).type = d.type := by
  unfold thermostatTransition; split_ifs <;> rfl

/-- Camera actions never change a device's id. -/
theorem cameraTransition_id (d : Device) (action : String) (kwargs : Props) :
    (cameraTransition d action kwargs).id = d.id := by
  unfold cameraTransition; split_ifs <;> rfl

/-- Camera actions never change a device's type. -/
theorem cameraTransition_type (d : Device) (action : String) (kwargs : Props) :
    (cameraTransition d action kwargs).type = d.type := by
  unfold cameraTransition; split_ifs <;> rfl

/-- Door-lock actions never change a device's id. -/
theorem lockTransition_id (d : Device) (action : String) (kwargs : Props) :
    (lockTransition d action kwargs).id = d.id := by
  unfold lockTransition; split_ifs <;> rfl

/-- Door-lock actions never change a device's type. -/
theorem lockTransition_type (d : Device) (action : String) (kwargs : Props) :
    (lockTransition d action kwargs).type = d.type := by
  unfold lockTransition; split_ifs <;> rfl

/-- An action name outside the light action table leaves the device
record untouched. -/
theorem lightTransition_unrecognized (d : Device) (action : String) (kwargs : Props)
    (h1 : (action == "turn_on") = false) (h2 : (action == "turn_off") = false)
    (h3 : (action == "set_brightness") = false) :
    lightTransition d action kwargs = d := by
  unfold lightTransition
  simp [h1, h2, h3]

/-- An action name outside the thermostat action table leaves the
device record untouched. -/
theorem thermostatTransition_unrecognized (d : Device) (action : String) (kwargs : Props)
    (h1 : (action == "set_temperature") = false) (h2 : (action == "set_mode") = false) :
    thermostatTransition d action kwargs = d := by
  unfold thermostatTransition
  simp [h1, h2]

/-- An action name outside the camera action table leaves the device
record untouched. -/
theorem cameraTransition_unrecognized (d : Device) (action : String) (kwargs : Props)
    (h1 : (action == "enable_recording") = false)
    (h2 : (action == "disable_recording") = false)
    (h3 : (action == "toggle_motion_detection") = false) :
    cameraTransition d action kwargs = d := by
  unfold cameraTransition
  simp [h1, h2, h3]

/-- An action name outside the door-lock action table leaves the
device record untouched. -/
theorem lockTransition_unrecognized (d : Device) (action : String) (kwargs : Props)
    (h1 : (action == "lock") = false) (h2 : (action == "unlock") = false) :
    lockTransition d action kwargs = d := by
  unfold lockTransition
  simp [h1, h2]

/-- `set_brightness` on a light whose status is ON writes the
`brightness` keyword argument, defaulting to 50. -/
theorem lightTransition_set_brightness_on (d : Device) (kwargs : Props)
    (hon : d.status = DeviceStatus.on) :
    lightTransition d "set_brightness" kwargs =
      { d with properties := propSet d.properties "brightness"
                 (propGetD kwargs "brightness" (Value.int 50)) } := by
  unfold lightTransition
  rw [if_neg (by decide), if_neg (by decide), if_pos (by decide), if_pos hon]

/-! ### Characterizing the dispatcher calls -/

/-- `control_light` on a present device of the right type: the
transition applies, `last_updated` is stamped, and success is
reported. -/
theorem control_light_found (devices : List Device) (device_id action : String)
    (kwargs : Props) (now : Nat) (d : Device)
    (hg : getDevice devices device_id = some d) (ht : d.type = DeviceType.light) :
    control_light devices device_id action kwargs now =
      (ControlResult.ok (d.name ++ " " ++ action ++ " completed")
         { lightTransition d action kwargs with last_updated := now },
       setDevice devices { lightTransition d action kwargs with last_updated := now }) := by
  unfold control_light
  rw [hg]
  simp [ht, lightTransition_name]

/-- `control_thermostat` on a present device of the right type. -/
theorem control_thermostat_found (devices : List Device) (device_id action : String)
    (kwargs : Props) (now : Nat) (d : Device)
    (hg : getDevice devices device_id = some d) (ht : d.type = DeviceType.thermostat) :
    control_thermostat devices device_id action kwargs now =
      (ControlResult.ok ("Thermostat " ++ action ++ " completed")
         { thermostatTransition d action kwargs with last_updated := now },
       setDevice devices { thermostatTransition d action kwargs with last_updated := now }) := by
  unfold control_thermostat
  rw [hg]
  simp [ht]

/-- `control_camera` on a present device of the right type. -/
theorem control_camera_found (devices : List Device) (device_id action : String)
    (kwargs : Props) (now : Nat) (d : Device)
    (hg : getDevice devices device_id = some d) (ht : d.type = DeviceType.security_camera) :
    control_camera devices device_id action kwargs now =
      (ControlResult.ok ("Camera " ++ action ++ " completed")
         { cameraTransition d action kwargs with last_updated := now },
       setDevice devices { cameraTransition d action kwargs with last_updated := now }) := by
  unfold control_camera
  rw [hg]
  simp [ht]

/-- `control_door_lock` on a present device of the right type. -/
theorem control_door_lock_found (devices : List Device) (device_id action : String)
    (kwargs : Props) (now : Nat) (d : Device)
    (hg : getDevice devices device_id = some d) (ht : d.type = DeviceType.door_lock) :
    control_door_lock devices device_id action kwargs now =
      (ControlResult.ok ("Door " ++ action ++ " completed")
         { lockTransition d action kwargs with last_updated := now },
       setDevice devices { lockTransition d action kwargs with last_updated := now }) := by
  unfold control_door_lock
  rw [hg]
  simp [ht]

/-- `control_light` when the device is absent or not a light. -/
theorem control_light_mismatch (devices : List Device) (device_id action : String)
    (kwargs : Props) (now : Nat)
    (h : ∀ d, getDevice devices device_id = some d → d.type ≠ DeviceType.light) :
    control_light devices device_id action kwargs now =
      (ControlResult.failure "Light device not found", devices) := by
  unfold control_light
  cases hg : getDevice devices device_id with
  | none => rfl
  | some d => simp [h d hg]

/-- `control_thermostat` when the device is absent or not a
thermostat. -/
theorem control_thermostat_mismatch (devices : List Device) (device_id action : String)
    (kwargs : Props) (now : Nat)
    (h : ∀ d, getDevice devices device_id = some d → d.type ≠ DeviceType.thermostat) :
    control_thermostat devices device_id action kwargs now =
      (ControlResult.failure "Thermostat device not found", devices) := by
  unfold control_thermostat
  cases hg : getDevice devices device_id with
  | none => rfl
  | some d => simp [h d hg]

/-- `control_camera` when the device is absent or not a camera. -/
theorem control_camera_mismatch (devices : List Device) (device_id action : String)
    (kwargs : Props) (now : Nat)
    (h : ∀ d, getDevice devices device_id = some d → d.type ≠ DeviceType.security_camera) :
    control_camera devices device_id action kwargs now =
      (ControlResult.failure "Camera device not found", devices) := by
  unfold control_camera
  cases hg : getDevice devices device_id with
  | none => rfl
  | some d => simp [h d hg]

/-- `control_door_lock` when the device is absent or not a door
lock. -/
theorem control_door_lock_mismatch (devices : List Device) (device_id action : String)
    (kwargs : Props) (now : Nat)
    (h : ∀ d, getDevice devices device_id = some d → d.type ≠ DeviceType.door_lock) :
    control_door_lock devices device_id action kwargs now =
      (ControlResult.failure "Door lock device not found", devices) := by
  unfold control_door_lock
  cases hg : getDevice devices device_id with
  | none => rfl
  | some d => simp [h d hg]

/-! ### Rule execution -/

/-- Writing back a device that keeps the looked-up device's type
leaves every registry slot's id and type unchanged. -/
theorem lookupKey_setDevice (devices : List Device) (d d' : Device)
    (hg : getDevice devices d'.id = some d) (ht : d'.type = d.type) :
    ∀ x, lookupKey (setDevice devices d') x = lookupKey devices x := by
  intro x
  unfold lookupKey
  rw [getDevice_setDevice]
  split_ifs with hx
  · subst hx
    rw [hg]
    have hid : d.id = d'.id := getDevice_id _ _ _ hg
    simp only [Option.map_some', Option.some.injEq, Prod.mk.injEq]
    exact ⟨hid.symm, ht⟩
  · rfl

/-- Resolvability only depends on the ids and types of the registry
slots. -/
theorem resolvable_congr (devices devices2 : List Device)
    (h : ∀ x, lookupKey devices2 x = lookupKey devices x) (a : RuleAction) :
    resolvable devices2 a = resolvable devices a := by
  have hx := h a.device_id
  unfold lookupKey at hx
  unfold resolvable
  cases h2 : getDevice devices2 a.device_id with
  | none =>
    cases h1 : getDevice devices a.device_id with
    | none => rfl
    | some d1 => rw [h2, h1] at hx; simp at hx
  | some d2 =>
    cases h1 : getDevice devices a.device_id with
    | none => rw [h2, h1] at hx; simp at hx
    | some d1 =>
      rw [h2, h1] at hx
      simp only [Option.map_some', Option.some.injEq, Prod.mk.injEq] at hx
      simp only [hx.2]

/-- Where the action loop dispatches: a resolvable action reaches the
matching `control_*`, which succeeds (the type recheck inside it sees
the same registry) and writes back a device with the same id and
type. -/
theorem dispatchAction_found (devices : List Device) (a : RuleAction) (now : Nat)
    (d : Device) (hg : getDevice devices a.device_id = some d)
    (ht : d.type ≠ DeviceType.motion_sensor) :
    ∃ msg d', dispatchAction devices a now =
        some (ControlResult.ok msg d', setDevice devices d')
      ∧ d'.id = d.id ∧ d'.type = d.type := by
  cases htype : d.type with
  | light =>
    refine ⟨d.name ++ " " ++ a.action ++ " completed",
      { lightTransition d a.action a.kwargs with last_updated := now }, ?_,
      lightTransition_id d a.action a.kwargs, ?_⟩
    · unfold dispatchAction
      rw [hg]
      simp only [htype]
      rw [control_light_found devices a.device_id a.action a.kwargs now d hg htype]
    · rw [← htype]; exact lightTransition_type d a.action a.kwargs
  | thermostat =>
    refine ⟨"Thermostat " ++ a.action ++ " completed",
      { thermostatTransition d a.action a.kwargs with last_updated := now }, ?_,
      thermostatTransition_id d a.action a.kwargs, ?_⟩
    · unfold dispatchAction
      rw [hg]
      simp only [htype]
      rw [control_thermostat_found devices a.device_id a.action a.kwargs now d hg htype]
    · rw [← htype]; exact thermostatTransition_type d a.action a.kwargs
  | security_camera =>
    refine ⟨"Camera " ++ a.action ++ " completed",
      { cameraTransition d a.action a.kwargs with last_updated := now }, ?_,
      cameraTransition_id d a.action a.kwargs, ?_⟩
    · unfold dispatchAction
      rw [hg]
      simp only [htype]
      rw [control_camera_found devices a.device_id a.action a.kwargs now d hg htype]
    · rw [← htype]; exact cameraTransition_type d a.action a.kwargs
  | door_lock =>
    refine ⟨"Door " ++ a.action ++ " completed",
      { lockTransition d a.action a.kwargs with last_updated := now }, ?_,
      lockTransition_id d a.action a.kwargs, ?_⟩
    · unfold dispatchAction
      rw [hg]
      simp only [htype]
      rw [control_door_lock_found devices a.device_id a.action a.kwargs now d hg htype]
    · rw [← htype]; exact lockTransition_type d a.action a.kwargs
  | motion_sensor => exact absurd htype ht

/-- A resolvable action resolves to a non-motion-sensor device. -/
theorem resolvable_elim (devices : List Device) (a : RuleAction)
    (h : resolvable devices a = true) :
    ∃ d, getDevice devices a.device_id = some d
      ∧ d.type ≠ DeviceType.motion_sensor := by
  unfold resolvable at h
  cases hg : getDevice devices a.device_id with
  | none => rw [hg] at h; cases h
  | some d =>
    rw [hg] at h
    simp only [Bool.not_eq_true', beq_eq_false_iff_ne, ne_eq] at h
    exact ⟨d, rfl, h⟩

/-- An unresolvable action is a `continue`. -/
theorem dispatchAction_unresolvable (devices : List Device) (a : RuleAction) (now : Nat)
    (h : resolvable devices a = false) :
    dispatchAction devices a now = none := by
  unfold resolvable at h
  unfold dispatchAction
  cases hg : getDevice devices a.device_id with
  | none => rfl
  | some d =>
    rw [hg] at h
    simp only [Bool.not_eq_false', beq_iff_eq] at h
    simp only [h]

/-- One-step unfolding of the action loop. -/
theorem runActions_cons (devices : List Device) (a : RuleAction)
    (rest : List RuleAction) (now : Nat) :
    runActions devices (a :: rest) now =
      match dispatchAction devices a now with
      | none => runActions devices rest now
      | some (r, devices2) =>
        (r :: (runActions devices2 rest now).1, (runActions devices2 rest now).2) := rfl

/-- Skipping an unresolved action leaves the loop state alone. -/
theorem runActions_cons_skip (devices : List Device) (a : RuleAction)
    (rest : List RuleAction) (now : Nat)
    (h : dispatchAction devices a now = none) :
    runActions devices (a :: rest) now = runActions devices rest now := by
  rw [runActions_cons devices a rest now, h]

/-- A dispatched action contributes its result and threads the
updated registry. -/
theorem runActions_cons_step (devices devices2 : List Device) (a : RuleAction)
    (rest : List RuleAction) (now : Nat) (r : ControlResult)
    (h : dispatchAction devices a now = some (r, devices2)) :
    runActions devices (a :: rest) now =
      (r :: (runActions devices2 rest now).1, (runActions devices2 rest now).2) := by
  rw [runActions_cons devices a rest now, h]

/-- The action loop produces exactly one result per resolvable action,
in action-list order (each result snapshots the device of its action's
target id), and never changes which id resolves to which device
type. -/
theorem runActions_spec (acts : List RuleAction) :
    ∀ devices now,
      ((runActions devices acts now).1).map resultId =
        (acts.filter (fun a => resolvable devices a)).map (fun a => some a.device_id)
      ∧ ∀ x, lookupKey (runActions devices acts now).2 x = lookupKey devices x := by
  induction acts with
  | nil => exact fun devices now => ⟨rfl, fun x => rfl⟩
  | cons a rest ih =>
    intro devices now
    cases hres : resolvable devices a with
    | false =>
      have hskip := runActions_cons_skip devices a rest now
        (dispatchAction_unresolvable devices a now hres)
      rw [hskip, List.filter_cons_of_neg (by simp [hres])]
      exact ih devices now
    | true =>
      obtain ⟨d, hg, ht⟩ := resolvable_elim devices a hres
      obtain ⟨msg, d', hd, hid, htype⟩ := dispatchAction_found devices a now d hg ht
      have hstep := runActions_cons_step devices (setDevice devices d') a rest now _ hd
      have hg' : getDevice devices d'.id = some d := by rw [hid, getDevice_id _ _ _ hg]; exact hg
      have hpre : ∀ x, lookupKey (setDevice devices d') x = lookupKey devices x :=
        lookupKey_setDevice devices d d' hg' htype
      have ihs := ih (setDevice devices d') now
      constructor
      · rw [hstep, List.filter_cons_of_pos (by simp [hres])]
        simp only [List.map_cons, List.cons.injEq]
        refine ⟨?_, ?_⟩
        · show some d'.id = some a.device_id
          rw [hid, getDevice_id _ _ _ hg]
        · rw [ihs.1, List.filter_congr (fun b _ => resolvable_congr devices _ hpre b)]
      · intro x
        rw [hstep]
        exact (ihs.2 x).trans (hpre x)

/-- If no action of the list resolves, the loop is a no-op. -/
theorem runActions_nil_of_unresolvable (acts : List RuleAction) :
    ∀ devices now, (∀ a ∈ acts, resolvable devices a = false) →
      runActions devices acts now = ([], devices) := by
  induction acts with
  | nil => exact fun devices now _ => rfl
  | cons a rest ih =>
    intro devices now h
    rw [runActions_cons_skip devices a rest now
      (dispatchAction_unresolvable devices a now (h a (by simp)))]
    exact ih devices now (fun b hb => h b (by simp [hb]))

/-! ### Claim theorems -/

/-- C1 counterexample: at a simulated time of 07:30 with an empty
occupancy map and the seeded registry, `get_contextual_suggestions`
DOES contain the away-mode security suggestion, and the result is not
just the morning-routine suggestion — `not any({}.values())` is true
for the empty dict, so the away-mode block fires. -/
theorem empty_occupancy_triggers_away_mode :
    securitySuggestion ∈ get_contextual_suggestions defaultDevices [] (tsec 7 30)
    ∧ get_contextual_suggestions defaultDevices [] (tsec 7 30) ≠ [morningSuggestion] := by
  decide

/-- C1 (amended): for every device snapshot and every time of day, an
empty occupancy map always produces the away-mode security suggestion
(the code treats "no data" like "everyone away"); in particular at
07:30 with an empty occupancy map the result is exactly the
morning-routine suggestion followed by the away-mode suggestion. -/
theorem empty_occupancy_away_suggestion :
    (∀ (devices : List Device) (t : Nat),
        securitySuggestion ∈ get_contextual_suggestions devices [] t)
    ∧ get_contextual_suggestions defaultDevices [] (tsec 7 30) =
        [morningSuggestion, securitySuggestion] := by
  constructor
  · intro devices t
    unfold get_contextual_suggestions
    simp [List.mem_append]
  · rfl

/-- C2 counterexample: an enabled rule whose single action targets the
seeded registry's motion sensor.  The target device id resolves in the
registry, yet `execute_contextual_rule` produces no result entry for
it and counts zero completed actions. -/
theorem motion_action_resolves_but_is_skipped :
    motionRule.enabled = true
    ∧ (motionRule.actions.countP
        (fun a => (getDevice defaultDevices a.device_id).isSome)) = 1
    ∧ (execute_contextual_rule [motionRule] defaultDevices "motion_rule" 0).1 =
        RuleResult.ok motionRule.name [] 0
    ∧ (execute_contextual_rule [motionRule] defaultDevices "motion_rule" 0).2 =
        defaultDevices :=
  ⟨rfl, rfl, rfl, rfl⟩

/-- C2 (amended): for every enabled rule in the store,
`execute_contextual_rule` returns one result entry per action whose
target device id resolves in the registry to a device of a
dispatchable type (light, thermostat, security camera or door lock),
in action-list order — each result's snapshot carries its action's
target device id — with other actions silently omitted, and
`actions_completed` equal to the length of the result sequence. -/
theorem execute_rule_results (rules : List ContextualRule) (devices : List Device)
    (rule_id : String) (now : Nat) (rule : ContextualRule)
    (hf : rules.find? (fun r => r.id == rule_id) = some rule)
    (he : rule.enabled = true) :
    ∃ results,
      (execute_contextual_rule rules devices rule_id now).1 =
        RuleResult.ok rule.name results results.length
      ∧ results.map resultId =
          (rule.actions.filter (fun a => resolvable devices a)).map
            (fun a => some a.device_id) := by
  unfold execute_contextual_rule
  rw [hf]
  simp only [he, if_true]
  exact ⟨_, rfl, (runActions_spec rule.actions devices now).1⟩

/-- C2 witness: executing the seeded `bedtime_routine` rule on the
seeded registry. -/
theorem execute_rule_results_witness :
    ∃ results,
      (execute_contextual_rule defaultRules defaultDevices "bedtime_routine" 7).1 =
        RuleResult.ok bedtimeRule.name results results.length
      ∧ results.map resultId =
          (bedtimeRule.actions.filter (fun a => resolvable defaultDevices a)).map
            (fun a => some a.device_id) :=
  execute_rule_results defaultRules defaultDevices "bedtime_routine" 7 bedtimeRule rfl rfl

/-- C3: for every rule id that is absent from the rule store or names
a rule whose enabled flag is false, `execute_contextual_rule` returns
the failure result (`success=False`) and leaves the registry — hence
every device's status, properties and `last_updated` — completely
unchanged. -/
theorem execute_rule_absent_or_disabled (rules : List ContextualRule)
    (devices : List Device) (rule_id : String) (now : Nat)
    (h : ∀ r, rules.find? (fun r => r.id == rule_id) = some r → r.enabled = false) :
    execute_contextual_rule rules devices rule_id now =
      (RuleResult.failure "Rule not found or disabled", devices) := by
  unfold execute_contextual_rule
  cases hf : rules.find? (fun r => r.id == rule_id) with
  | none => rfl
  | some r => simp [h r hf]

/-- C3 witness: a store holding only the disabled bedtime rule. -/
theorem execute_rule_absent_or_disabled_witness :
    execute_contextual_rule [disabledBedtimeRule] defaultDevices "bedtime_routine" 3 =
      (RuleResult.failure "Rule not found or disabled", defaultDevices) :=
  execute_rule_absent_or_disabled [disabledBedtimeRule] defaultDevices "bedtime_routine" 3
    (fun r h => by injection h with h2; rw [← h2]; rfl)

/-- C4: for every registered device matching the invoked control
operation's type, an action name outside that operation's recognized
table mutates no property and leaves the status unchanged, but still
refreshes `last_updated` and reports success. -/
theorem unrecognized_action_refreshes_only (devices : List Device)
    (device_id action : String) (kwargs : Props) (now : Nat) (d : Device)
    (hg : getDevice devices device_id = some d) :
    (d.type = DeviceType.light →
      (action == "turn_on") = false → (action == "turn_off") = false →
      (action == "set_brightness") = false →
      control_light devices device_id action kwargs now =
        (ControlResult.ok (d.name ++ " " ++ action ++ " completed")
           { d with last_updated := now },
         setDevice devices { d with last_updated := now }))
    ∧ (d.type = DeviceType.thermostat →
      (action == "set_temperature") = false → (action == "set_mode") = false →
      control_thermostat devices device_id action kwargs now =
        (ControlResult.ok ("Thermostat " ++ action ++ " completed")
           { d with last_updated := now },
         setDevice devices { d with last_updated := now }))
    ∧ (d.type = DeviceType.security_camera →
      (action == "enable_recording") = false →
      (action == "disable_recording") = false →
      (action == "toggle_motion_detection") = false →
      control_camera devices device_id action kwargs now =
        (ControlResult.ok ("Camera " ++ action ++ " completed")
           { d with last_updated := now },
         setDevice devices { d with last_updated := now }))
    ∧ (d.type = DeviceType.door_lock →
      (action == "lock") = false → (action == "unlock") = false →
      control_door_lock devices device_id action kwargs now =
        (ControlResult.ok ("Door " ++ action ++ " completed")
           { d with last_updated := now },
         setDevice devices { d with last_updated := now })) := by
  refine ⟨?_, ?_, ?_, ?_⟩
  · intro ht h1 h2 h3
    rw [control_light_found devices device_id action kwargs now d hg ht,
      lightTransition_unrecognized d action kwargs h1 h2 h3]
  · intro ht h1 h2
    rw [control_thermostat_found devices device_id action kwargs now d hg ht,
      thermostatTransition_unrecognized d action kwargs h1 h2]
  · intro ht h1 h2 h3
    rw [control_camera_found devices device_id action kwargs now d hg ht,
      cameraTransition_unrecognized d action kwargs h1 h2 h3]
  · intro ht h1 h2
    rw [control_door_lock_found devices device_id action kwargs now d hg ht,
      lockTransition_unrecognized d action kwargs h1 h2]

/-- C4 witness: the unrecognized action "sparkle" against one seeded
device of each controlled type. -/
theorem unrecognized_action_refreshes_only_witness :
    control_light defaultDevices "living_room_light" "sparkle" [] 5 =
      (ControlResult.ok (livingRoomLight.name ++ " " ++ "sparkle" ++ " completed")
         { livingRoomLight with last_updated := 5 },
       setDevice defaultDevices { livingRoomLight with last_updated := 5 })
    ∧ control_thermostat defaultDevices "main_thermostat" "sparkle" [] 5 =
      (ControlResult.ok ("Thermostat " ++ "sparkle" ++ " completed")
         { mainThermostat with last_updated := 5 },
       setDevice defaultDevices { mainThermostat with last_updated := 5 })
    ∧ control_camera defaultDevices "front_door_camera" "sparkle" [] 5 =
      (ControlResult.ok ("Camera " ++ "sparkle" ++ " completed")
         { frontDoorCamera with last_updated := 5 },
       setDevice defaultDevices { frontDoorCamera with last_updated := 5 })
    ∧ control_door_lock defaultDevices "front_door_lock" "sparkle" [] 5 =
      (ControlResult.ok ("Door " ++ "sparkle" ++ " completed")
         { frontDoorLock with last_updated := 5 },
       setDevice defaultDevices { frontDoorLock with last_updated := 5 }) :=
  ⟨(unrecognized_action_refreshes_only defaultDevices "living_room_light" "sparkle" [] 5
      livingRoomLight rfl).1 rfl rfl rfl rfl,
   (unrecognized_action_refreshes_only defaultDevices "main_thermostat" "sparkle" [] 5
      mainThermostat rfl).2.1 rfl rfl rfl,
   (unrecognized_action_refreshes_only defaultDevices "front_door_camera" "sparkle" [] 5
      frontDoorCamera rfl).2.2.1 rfl rfl rfl rfl,
   (unrecognized_action_refreshes_only defaultDevices "front_door_lock" "sparkle" [] 5
      frontDoorLock rfl).2.2.2 rfl rfl rfl⟩

/-- C5: for every control operation, a target device id that is
absent from the registry or resolves to a device of the wrong type
yields the failure result with that operation's error message, with
the registry returned unchanged (and, the embedding being total, no
exception is possible). -/
theorem control_wrong_target_fails (devices : List Device)
    (device_id action : String) (kwargs : Props) (now : Nat) :
    ((∀ d, getDevice devices device_id = some d → d.type ≠ DeviceType.light) →
      control_light devices device_id action kwargs now =
        (ControlResult.failure "Light device not found", devices))
    ∧ ((∀ d, getDevice devices device_id = some d → d.type ≠ DeviceType.thermostat) →
      control_thermostat devices device_id action kwargs now =
        (ControlResult.failure "Thermostat device not found", devices))
    ∧ ((∀ d, getDevice devices device_id = some d → d.type ≠ DeviceType.security_camera) →
      control_camera devices device_id action kwargs now =
        (ControlResult.failure "Camera device not found", devices))
    ∧ ((∀ d, getDevice devices device_id = some d → d.type ≠ DeviceType.door_lock) →
      control_door_lock devices device_id action kwargs now =
        (ControlResult.failure "Door lock device not found", devices)) :=
  ⟨fun h => control_light_mismatch devices device_id action kwargs now h,
   fun h => control_thermostat_mismatch devices device_id action kwargs now h,
   fun h => control_camera_mismatch devices device_id action kwargs now h,
   fun h => control_door_lock_mismatch devices device_id action kwargs now h⟩

/-- C5 witness: three type mismatches against seeded devices and one
absent device id. -/
theorem control_wrong_target_fails_witness :
    control_light defaultDevices "main_thermostat" "turn_on" [] 2 =
      (ControlResult.failure "Light device not found", defaultDevices)
    ∧ control_thermostat defaultDevices "living_room_light" "set_temperature" [] 2 =
      (ControlResult.failure "Thermostat device not found", defaultDevices)
    ∧ control_camera defaultDevices "front_door_lock" "enable_recording" [] 2 =
      (ControlResult.failure "Camera device not found", defaultDevices)
    ∧ control_door_lock defaultDevices "missing_device" "lock" [] 2 =
      (ControlResult.failure "Door lock device not found", defaultDevices) :=
  ⟨(control_wrong_target_fails defaultDevices "main_thermostat" "turn_on" [] 2).1
      (fun d h => by injection h with h2; rw [← h2]; decide),
   (control_wrong_target_fails defaultDevices "living_room_light" "set_temperature" [] 2).2.1
      (fun d h => by injection h with h2; rw [← h2]; decide),
   (control_wrong_target_fails defaultDevices "front_door_lock" "enable_recording" [] 2).2.2.1
      (fun d h => by injection h with h2; rw [← h2]; decide),
   (control_wrong_target_fails defaultDevices "missing_device" "lock" [] 2).2.2.2
      (fun d h => by injection h)⟩

/-- C6: for every registry, occupancy snapshot and time of day,
`get_contextual_suggestions` contains at most one of the three
time-based suggestions (the bands form an `if/elif/elif` chain, so
the first matching band wins); in particular at exactly 22:00 —
where the evening band (which ends at 22:00 inclusive) and the
bedtime band (which starts at 22:00) overlap — the evening wind-down
suggestion is produced and the bedtime one is not. -/
theorem time_bands_first_match_wins :
    ∀ (devices : List Device) (occ : List (String × Bool)) (t : Nat),
      ((get_contextual_suggestions devices occ t).countP isTimeBandSuggestion) ≤ 1
      ∧ eveningSuggestion ∈ get_contextual_suggestions devices occ (tsec 22 0)
      ∧ bedtimeSuggestion ∉ get_contextual_suggestions devices occ (tsec 22 0) := by
  intro devices occ t
  refine ⟨?_, ?_, ?_⟩
  · unfold get_contextual_suggestions
    rw [List.countP_append, List.countP_append]
    have h1 : (timeSuggestions t).countP isTimeBandSuggestion ≤ 1 := by
      unfold timeSuggestions
      split_ifs <;> decide
    have h2 : (if !(occ.any fun p => p.2) then [securitySuggestion]
        else []).countP isTimeBandSuggestion = 0 := by
      split_ifs <;> decide
    have h3 : (if (devices.filter (fun d =>
          d.type == DeviceType.light && d.status == DeviceStatus.on)).length > 2 then
          [energySuggestion] else []).countP isTimeBandSuggestion = 0 := by
      split_ifs <;> decide
    omega
  · unfold get_contextual_suggestions timeSuggestions
    rw [if_neg (by decide), if_pos (by decide)]
    simp [List.mem_append]
  · unfold get_contextual_suggestions timeSuggestions
    rw [if_neg (by decide), if_pos (by decide)]
    split_ifs <;> decide

/-- C6 witness: the seeded registry with no occupancy data, at noon
and at 22:00. -/
theorem time_bands_first_match_wins_witness :
    ((get_contextual_suggestions defaultDevices [] (tsec 12 0)).countP
        isTimeBandSuggestion) ≤ 1
    ∧ eveningSuggestion ∈ get_contextual_suggestions defaultDevices [] (tsec 22 0)
    ∧ bedtimeSuggestion ∉ get_contextual_suggestions defaultDevices [] (tsec 22 0) :=
  time_bands_first_match_wins defaultDevices [] (tsec 12 0)

/-- C7: turning off any registered light resets it: the call reports
success with the device snapshot, and the device now stored in the
registry has status OFF and brightness 0, whatever its prior state. -/
theorem light_turn_off_resets (devices : List Device) (device_id : String)
    (kwargs : Props) (now : Nat) (d : Device)
    (hg : getDevice devices device_id = some d) (ht : d.type = DeviceType.light) :
    ∃ msg d',
      control_light devices device_id "turn_off" kwargs now =
        (ControlResult.ok msg d', setDevice devices d')
      ∧ getDevice (setDevice devices d') device_id = some d'
      ∧ d'.status = DeviceStatus.off
      ∧ propGet d'.properties "brightness" = some (Value.int 0) := by
  refine ⟨d.name ++ " " ++ "turn_off" ++ " completed",
    { d with status := DeviceStatus.off,
             properties := propSet d.properties "brightness" (Value.int 0),
             last_updated := now }, ?_, ?_, rfl,
    propGet_propSet d.properties "brightness" (Value.int 0)⟩
  · exact control_light_found devices device_id "turn_off" kwargs now d hg ht
  · rw [getDevice_setDevice]
    have hid : d.id = device_id := getDevice_id _ _ _ hg
    rw [if_pos hid.symm, hg]
    rfl

/-- C7 witness: turning off the seeded bedroom light. -/
theorem light_turn_off_resets_witness :
    ∃ msg d',
      control_light defaultDevices "bedroom_light" "turn_off" [] 4 =
        (ControlResult.ok msg d', setDevice defaultDevices d')
      ∧ getDevice (setDevice defaultDevices d') "bedroom_light" = some d'
      ∧ d'.status = DeviceStatus.off
      ∧ propGet d'.properties "brightness" = some (Value.int 0) :=
  light_turn_off_resets defaultDevices "bedroom_light" [] 4 bedroomLight rfl rfl

/-- C8: on any registered door lock, `unlock` followed by `lock`
rounds back to the locked state: the device then stored in the
registry has status OFF (OFF = locked) and its `locked` property is
true. -/
theorem door_lock_unlock_lock_roundtrip (devices : List Device) (device_id : String)
    (kwargs1 kwargs2 : Props) (now1 now2 : Nat) (d : Device)
    (hg : getDevice devices device_id = some d) (ht : d.type = DeviceType.door_lock) :
    ∃ d2,
      getDevice (control_door_lock
          (control_door_lock devices device_id "unlock" kwargs1 now1).2
          device_id "lock" kwargs2 now2).2 device_id = some d2
      ∧ d2.status = DeviceStatus.off
      ∧ propGet d2.properties "locked" = some (Value.bool true) := by
  have hid : d.id = device_id := getDevice_id _ _ _ hg
  have h1 := control_door_lock_found devices device_id "unlock" kwargs1 now1 d hg ht
  have hg1 : getDevice (control_door_lock devices device_id "unlock" kwargs1 now1).2
      device_id = some { d with
                         status := DeviceStatus.on,
                         properties := propSet d.properties "locked" (Value.bool false),
                         last_updated := now1 } := by
    rw [h1]
    show getDevice (setDevice devices
      { d with
        status := DeviceStatus.on,
        properties := propSet d.properties "locked" (Value.bool false),
        last_updated := now1 }) device_id = _
    rw [getDevice_setDevice, if_pos hid.symm, hg]
    rfl
  have h2 := control_door_lock_found
    (control_door_lock devices device_id "unlock" kwargs1 now1).2 device_id "lock"
    kwargs2 now2 _ hg1 ht
  refine ⟨{ d with
            status := DeviceStatus.off,
            properties := propSet (propSet d.properties "locked" (Value.bool false))
              "locked" (Value.bool true),
            last_updated := now2 }, ?_, rfl,
    propGet_propSet _ "locked" (Value.bool true)⟩
  rw [h2]
  show getDevice (setDevice (control_door_lock devices device_id "unlock" kwargs1 now1).2
    { d with
      status := DeviceStatus.off,
      properties := propSet (propSet d.properties "locked" (Value.bool false))
        "locked" (Value.bool true),
      last_updated := now2 }) device_id = _
  rw [getDevice_setDevice, if_pos hid.symm, hg1]
  rfl

/-- C8 witness: unlocking and re-locking the seeded front door
lock. -/
theorem door_lock_unlock_lock_roundtrip_witness :
    ∃ d2,
      getDevice (control_door_lock
          (control_door_lock defaultDevices "front_door_lock" "unlock" [] 1).2
          "front_door_lock" "lock" [] 2).2 "front_door_lock" = some d2
      ∧ d2.status = DeviceStatus.off
      ∧ propGet d2.properties "locked" = some (Value.bool true) :=
  door_lock_unlock_lock_roundtrip defaultDevices "front_door_lock" [] [] 1 2
    frontDoorLock rfl rfl

/-- C9: an enabled rule none of whose actions resolve to a registered
device of a dispatchable type (the target id is absent, or names the
motion sensor) still executes successfully, with an empty result list,
`actions_completed = 0`, and the registry unchanged. -/
theorem execute_rule_all_unresolvable (rules : List ContextualRule)
    (devices : List Device) (rule_id : String) (now : Nat) (rule : ContextualRule)
    (hf : rules.find? (fun r => r.id == rule_id) = some rule)
    (he : rule.enabled = true)
    (ha : ∀ a ∈ rule.actions, resolvable devices a = false) :
    execute_contextual_rule rules devices rule_id now =
      (RuleResult.ok rule.name [] 0, devices) := by
  unfold execute_contextual_rule
  rw [hf]
  simp only [he, if_true]
  rw [runActions_nil_of_unresolvable rule.actions devices now ha]
  rfl

/-- C9 witness: a rule targeting an absent id and the seeded motion
sensor. -/
theorem execute_rule_all_unresolvable_witness :
    execute_contextual_rule [unresolvableRule] defaultDevices "unresolvable_rule" 9 =
      (RuleResult.ok unresolvableRule.name [] 0, defaultDevices) :=
  execute_rule_all_unresolvable [unresolvableRule] defaultDevices "unresolvable_rule" 9
    unresolvableRule rfl rfl (by decide)

/-- C10: `set_brightness` on a registered light whose status is ON,
with no `brightness` keyword argument, stores brightness 50 (the
`kwargs.get("brightness", 50)` default) and reports success. -/
theorem set_brightness_default_50 (devices : List Device) (device_id : String)
    (kwargs : Props) (now : Nat) (d : Device)
    (hg : getDevice devices device_id = some d) (ht : d.type = DeviceType.light)
    (hon : d.status = DeviceStatus.on)
    (hno : propGet kwargs "brightness" = none) :
    ∃ msg d',
      control_light devices device_id "set_brightness" kwargs now =
        (ControlResult.ok msg d', setDevice devices d')
      ∧ getDevice (setDevice devices d') device_id = some d'
      ∧ propGet d'.properties "brightness" = some (Value.int 50) := by
  have hdefault : propGetD kwargs "brightness" (Value.int 50) = Value.int 50 := by
    unfold propGetD
    rw [hno]
  refine ⟨d.name ++ " " ++ "set_brightness" ++ " completed",
    { d with properties := propSet d.properties "brightness" (Value.int 50),
             last_updated := now }, ?_, ?_, ?_⟩
  · rw [control_light_found devices device_id "set_brightness" kwargs now d hg ht,
      lightTransition_set_brightness_on d kwargs hon, hdefault]
  · rw [getDevice_setDevice]
    have hid : d.id = device_id := getDevice_id _ _ _ hg
    rw [if_pos hid.symm, hg]
    rfl
  · exact propGet_propSet d.properties "brightness" (Value.int 50)

/-- C10 witness: `set_brightness` with empty keyword arguments on a
light that is ON. -/
theorem set_brightness_default_50_witness :
    ∃ msg d',
      control_light [demoOnLight] "desk_light" "set_brightness" [] 6 =
        (ControlResult.ok msg d', setDevice [demoOnLight] d')
      ∧ getDevice (setDevice [demoOnLight] d') "desk_light" = some d'
      ∧ propGet d'.properties "brightness" = some (Value.int 50) :=
  set_brightness_default_50 [demoOnLight] "desk_light" [] 6 demoOnLight rfl rfl rfl rfl

end SmartHome
